/-
  Verification development for the rlox tree-walking interpreter.

  Shallow embedding of the interpreter core, translated from the Rust
  sources:
    - src/location.rs, src/code_span.rs        (source position model)
    - src/ast/expressions.rs, src/ast/statements.rs, src/ast/types.rs
    - src/eval/environment.rs                  (scope stack)
    - src/eval/expressions.rs, src/eval/statements.rs (evaluator visitors)
    - src/eval/runtime_error.rs
    - src/scanning/mod.rs                      (scanner)

  Modelling conventions:
    - Rust f64 numbers are modelled as rationals.  Every program and value
      appearing in the claims under study uses small integral numbers, for
      which rational arithmetic and IEEE-754 binary64 arithmetic agree;
      IEEE negative zero compares equal to 0.0 just as -0 = 0 in the
      rationals.
    - HashMap String V is modelled as an association list whose insert
      replaces an existing binding.
    - HashSet Type is modelled as a Finset.
    - Rc identity (ptr_eq) is modelled by a numeric tag carried next to the
      shared payload.
    - A todo! panic in the Rust source is modelled by a distinguished
      outcome constructor named unimplemented: it carries neither a value
      nor a runtime error.
    - The mutually recursive evaluator takes a fuel argument; Rust
      recursion needs no fuel, so fuel exhaustion is an artefact of the
      embedding, kept separate from every other outcome.
-/
import Mathlib

set_option maxHeartbeats 1000000
set_option maxRecDepth 4096

/-! ## Source position model (src/location.rs, src/code_span.rs) -/

/-- Mirror of struct Location: 1-based line, 0-based column. -/
structure Location where
  line : Nat
  char : Nat
deriving DecidableEq, Repr

/-- Mirror of Location::start. -/
def Location.start : Location := ⟨1, 0⟩

/-- Mirror of Location::advance: newline resets the column and bumps the
line, any other character bumps the column. -/
def Location.advance (l : Location) (c : Char) : Location :=
  if c = '\n' then ⟨l.line + 1, 0⟩ else ⟨l.line, l.char + 1⟩

/-- Mirror of struct CodeSpan.  The Rust field end is a Lean keyword and is
called stop here. -/
structure CodeSpan where
  start : Location
  stop : Location
deriving DecidableEq, Repr

/-- Mirror of CodeSpan::new. -/
def CodeSpan.new (start stop : Location) : CodeSpan := ⟨start, stop⟩

/-- Mirror of CodeSpan::combine: start of the left span to end of the right
span. -/
def CodeSpan.combine (left right : CodeSpan) : CodeSpan :=
  ⟨left.start, right.stop⟩

/-! ## AST (src/ast/mod.rs, src/ast/expressions.rs, src/ast/statements.rs) -/

/-- Mirror of enum LiteralValue. -/
inductive LiteralValue where
  | stringLiteral (s : String)
  | numberLiteral (n : ℚ)
  | true'
  | false'
  | nil'
deriving DecidableEq, Repr

/-- Mirror of struct Identifier. -/
structure Identifier where
  ident : String
  location : CodeSpan
deriving DecidableEq, Repr

/-- Mirror of enum UnaryOperator. -/
inductive UnaryOperator where
  | minus
  | not
deriving DecidableEq, Repr

/-- Mirror of enum BinaryOperator. -/
inductive BinaryOperator where
  | equality
  | inequality
  | strictInferiority
  | inferiority
  | strictSuperiority
  | superiority
  | addition
  | subtraction
  | multiplication
  | division
  | conjunction
  | disjunction
deriving DecidableEq, Repr

/-- Mirror of enum Expression together with the node structs Literal,
Unary, Binary, Assignment, Call and Get.  Each node carries its span as in
the Rust structs. -/
inductive Expression where
  | literal (value : LiteralValue) (location : CodeSpan)
  | unaryOperation (op : UnaryOperator) (expr : Expression) (location : CodeSpan)
  | binaryOperation (operator : BinaryOperator) (left right : Expression)
      (location : CodeSpan)
  | identifier (i : Identifier)
  | assignment (ident : Identifier) (expr : Expression) (location : CodeSpan)
  | call (callee : Expression) (arguments : List Expression) (location : CodeSpan)
  | get (object : Expression) (property : Identifier) (location : CodeSpan)

/-- Mirror of enum Statement.  A FunctionDeclaration owns an
Rc of ast::types::Function whose fields (args, body, span) are inlined
here; rcId models the identity of that shared allocation. -/
inductive Statement where
  | print (e : Expression)
  | expression (e : Expression)
  | variableDeclaration (name : Identifier) (initializer : Expression)
  | block (stmts : List Statement)
  | conditional (condition : Expression) (thenStatement : Statement)
      (elseStatement : Option Statement)
  | whileLoop (condition : Expression) (statement : Statement)
  | forLoop (initializer : Option Statement) (condition : Option Expression)
      (increment : Option Expression) (body : Statement)
  | functionDeclaration (name : Identifier) (rcId : Nat)
      (args : List Identifier) (body : List Statement) (span : CodeSpan)
  | ret (e : Expression)

/-- Mirror of ast::types::Function: parameter list, body statements and
declaration span. -/
structure Fn where
  args : List Identifier
  body : List Statement
  span : CodeSpan

/-! ## Values (src/ast/types.rs) -/

/-- Mirror of enum ValueType.  function carries the numeric Rc identity of
the shared Function allocation; nativeFunction carries the fn pointer as a
numeric identity plus the arity; object inlines the class name and the
property map (the shared Rc and the per-property spans take no part in any
behaviour under study, since both equality and display on objects reach a
todo! before inspecting them). -/
inductive ValueType where
  | str (s : String)
  | num (n : ℚ)
  | boolean (b : Bool)
  | nil
  | object (class' : Identifier) (properties : List (String × ValueType))
  | nativeFunction (fnPtr : Nat) (arity : Nat)
  | function (rcId : Nat) (f : Fn)
  | class' (name : Identifier)

/-- Mirror of struct Value: a ValueType with its span. -/
structure Value where
  location : CodeSpan
  value : ValueType

/-- Mirror of enum Type. -/
inductive LoxType where
  | string
  | number
  | boolean
  | nil
  | object
  | nativeFunction
  | function
  | class'
deriving DecidableEq, Repr

/-- Mirror of ValueType::as_type. -/
def ValueType.as_type : ValueType → LoxType
  | .str _ => .string
  | .num _ => .number
  | .boolean _ => .boolean
  | .nil => .nil
  | .object _ _ => .object
  | .nativeFunction _ _ => .nativeFunction
  | .function _ _ => .function
  | .class' _ => .class'

/-- Mirror of Value::new. -/
def Value.new (value : ValueType) (location : CodeSpan) : Value :=
  ⟨location, value⟩

/-! ## Runtime errors (src/eval/runtime_error.rs) -/

/-- Mirror of enum RuntimeError.  The Rust doc comment on MismatchedTypes
reads: Location: the location of the errored value; Type: the actual type
of the value; HashSet of Type: the allowed types for the value. -/
inductive RuntimeError where
  | mismatchedTypes (span : CodeSpan) (actual : LoxType) (allowed : Finset LoxType)
  | divisionByZero (span : CodeSpan)
  | unboundName (span : CodeSpan) (name : String)
  | writeError (span : CodeSpan)
  | notCallable (span : CodeSpan)
  | invalidArgumentCount (span : CodeSpan) (expected actual : Nat)
  | ret (value : Value)
  | getOnNonObject (value : Value)
  | undefinedProperty (objClass : Identifier)
      (objProperties : List (String × ValueType)) (ident : Identifier)

/-! ## Environment (src/eval/environment.rs) -/

/-- A scope frame: HashMap String ValueType modelled as an association
list whose insert replaces. -/
abbrev Frame := List (String × ValueType)

/-- HashMap::get. -/
def Frame.get (f : Frame) (k : String) : Option ValueType :=
  match f with
  | [] => none
  | (k', v) :: rest => if k' = k then some v else Frame.get rest k

/-- HashMap::insert: replace the existing binding or append a new one. -/
def Frame.insert (f : Frame) (k : String) (v : ValueType) : Frame :=
  match f with
  | [] => [(k, v)]
  | (k', v') :: rest =>
      if k' = k then (k, v) :: rest else (k', v') :: Frame.insert rest k v

/-- HashMap::contains_key. -/
def Frame.contains_key (f : Frame) (k : String) : Bool :=
  match f with
  | [] => false
  | (k', _) :: rest => if k' = k then true else Frame.contains_key rest k

/-- Mirror of struct Environment: the global frame plus the Vec of scope
frames.  The list is in Vec order: index 0 is the first (earliest) pushed
frame and the last element is the most recently pushed frame. -/
structure Environment where
  global : Frame
  stack : List Frame

/-- Mirror of Environment::new. -/
def Environment.new : Environment := ⟨[], []⟩

/-- Mirror of Environment::push_env: Vec::push appends at the end. -/
def Environment.push_env (e : Environment) : Environment :=
  { e with stack := e.stack ++ [([] : Frame)] }

/-- Mirror of Environment::pop_env: Vec::pop removes the last element. -/
def Environment.pop_env (e : Environment) : Environment :=
  { e with stack := e.stack.dropLast }

/-- Mirror of Environment::define: stack.first_mut() is the frame at Vec
index 0 (the earliest pushed frame) when the stack is non-empty, else the
global frame. -/
def Environment.define (e : Environment) (identifier : String)
    (value : ValueType) : Environment :=
  match e.stack with
  | [] => { e with global := e.global.insert identifier value }
  | first :: rest => { e with stack := first.insert identifier value :: rest }

/-- Helper for Environment::get: iterate the Vec in order, index 0 first,
returning the first hit. -/
def stackGet : List Frame → String → Option ValueType
  | [], _ => none
  | f :: rest, k =>
      match f.get k with
      | some v => some v
      | none => stackGet rest k

/-- Mirror of Environment::get: walk the stack in Vec iteration order
(index 0 first), then the globals. -/
def Environment.get (e : Environment) (identifier : String) : Option ValueType :=
  match stackGet e.stack identifier with
  | some v => some v
  | none => e.global.get identifier

/-- Helper for Environment::assign: iter_mut().rev() visits the most
recently pushed frame first, so the binding overwritten is in the LAST
frame of the list that contains the key. -/
def assignStack : List Frame → String → ValueType → Option (List Frame)
  | [], _, _ => none
  | f :: rest, k, v =>
      match assignStack rest k v with
      | some rest' => some (f :: rest')
      | none =>
          if f.contains_key k then some (f.insert k v :: rest) else none

/-- Mirror of Environment::assign. -/
def Environment.assign (e : Environment) (ident : String) (value : Value) :
    Except RuntimeError Environment :=
  match assignStack e.stack ident value.value with
  | some stack' => .ok { e with stack := stack' }
  | none =>
      if e.global.contains_key ident then
        .ok { e with global := e.global.insert ident value.value }
      else
        .error (.unboundName value.location ident)

/-! ## Sanity checks on the environment embedding -/

example : Environment.get ⟨[("x", .num 3)], []⟩ "x" = some (.num 3) := rfl

example :
    (Environment.new.push_env.define "x" (.num 3)).stack = [[("x", .num 3)]] :=
  rfl

/-! ## Pure evaluation helpers (src/eval/mod.rs, src/eval/expressions.rs) -/

/-- Mirror of eval::is_truthy: Boolean(false) and Nil are falsy, everything
else is truthy. -/
def is_truthy : ValueType → Bool
  | .boolean false => false
  | .nil => false
  | _ => true

/-- Result of a pure Rust function that can fail with a runtime error or
reach a todo! panic. -/
inductive PRes (α : Type) where
  | ok (a : α)
  | err (e : RuntimeError)
  | unimplemented

/-- Mirror of as_number in src/eval/expressions.rs.  Note that the Rust
code reports Type::Number as the actual type of the mismatched value in
every case, instead of calling as_type on the operand the way as_string
does. -/
def as_number (value : Value) : Except RuntimeError ℚ :=
  match value.value with
  | .num n => .ok n
  | _ => .error (.mismatchedTypes value.location .number {LoxType.number})

/-- Mirror of as_string in src/eval/expressions.rs. -/
def as_string (value : Value) : Except RuntimeError String :=
  match value.value with
  | .str s => .ok s
  | t => .error (.mismatchedTypes value.location t.as_type {LoxType.string})

/-- Mirror of fn addition. -/
def addition (left right : Value) : PRes ValueType :=
  match as_number left with
  | .ok l =>
      match as_number right with
      | .ok r => .ok (.num (l + r))
      | .error _ =>
          .err (.mismatchedTypes right.location right.value.as_type
            {LoxType.number})
  | .error _ =>
      match as_string left with
      | .ok l =>
          match as_string right with
          | .ok r => .ok (.str (l ++ r))
          | .error _ =>
              .err (.mismatchedTypes right.location right.value.as_type
                {LoxType.string})
      | .error _ =>
          .err (.mismatchedTypes left.location left.value.as_type
            {LoxType.number, LoxType.string})

/-- Mirror of fn subtraction. -/
def subtraction (left right : Value) : PRes ValueType :=
  match as_number left with
  | .error e => .err e
  | .ok l =>
      match as_number right with
      | .error e => .err e
      | .ok r => .ok (.num (l - r))

/-- Mirror of fn multiplication. -/
def multiplication (left right : Value) : PRes ValueType :=
  match as_number left with
  | .error e => .err e
  | .ok l =>
      match as_number right with
      | .error e => .err e
      | .ok r => .ok (.num (l * r))

/-- Mirror of impl PartialEq for ValueType in src/ast/types.rs.  The
Object-Object arm is todo! in the source, modelled as none; the Function
arm is Rc::ptr_eq, modelled as equality of the Rc identity tags; the
NativeFunction arm compares the fn pointers. -/
def valueTypePartialEq (self other : ValueType) : Option Bool :=
  match self, other with
  | .str s1, .str s2 => some (decide (s1 = s2))
  | .nil, .nil => some true
  | .object _ _, .object _ _ => none
  | .boolean b1, .boolean b2 => some (decide (b1 = b2))
  | .nativeFunction f1 _, .nativeFunction f2 _ => some (decide (f1 = f2))
  | .num n1, .num n2 => some (decide (n1 = n2))
  | .function r1 _, .function r2 _ => some (decide (r1 = r2))
  | _, _ => some false

/-- Mirror of fn division: the right operand is first compared with
Number(0.0) through the PartialEq impl above, before either operand is
converted with as_number. -/
def division (left right : Value) : PRes ValueType :=
  match valueTypePartialEq right.value (.num 0) with
  | none => .unimplemented
  | some true =>
      .err (.divisionByZero (CodeSpan.combine left.location right.location))
  | some false =>
      match as_number left with
      | .error e => .err e
      | .ok l =>
          match as_number right with
          | .error e => .err e
          | .ok r => .ok (.num (l / r))

/-- Mirror of fn strict_inferiority. -/
def strict_inferiority (left right : Value) : PRes ValueType :=
  match as_number left with
  | .error e => .err e
  | .ok l =>
      match as_number right with
      | .error e => .err e
      | .ok r => .ok (.boolean (decide (l < r)))

/-- Mirror of fn strict_superiority. -/
def strict_superiority (left right : Value) : PRes ValueType :=
  match as_number left with
  | .error e => .err e
  | .ok l =>
      match as_number right with
      | .error e => .err e
      | .ok r => .ok (.boolean (decide (l > r)))

/-- Mirror of fn inferiority. -/
def inferiority (left right : Value) : PRes ValueType :=
  match as_number left with
  | .error e => .err e
  | .ok l =>
      match as_number right with
      | .error e => .err e
      | .ok r => .ok (.boolean (decide (l ≤ r)))

/-- Mirror of fn superiority. -/
def superiority (left right : Value) : PRes ValueType :=
  match as_number left with
  | .error e => .err e
  | .ok l =>
      match as_number right with
      | .error e => .err e
      | .ok r => .ok (.boolean (decide (l ≥ r)))

/-- Mirror of fn test_equality in src/eval/expressions.rs.  The
Object-Object arm is todo! in the source, modelled as none; note that the
match has no Function, NativeFunction or Class arm, so those pairs fall to
the final catch-all and compare false. -/
def test_equality (left right : Value) : Option Bool :=
  match left.value, right.value with
  | .boolean l, .boolean r => some (decide (l = r))
  | .nil, .nil => some true
  | .num l, .num r => some (decide (l = r))
  | .str l, .str r => some (decide (l = r))
  | .object _ _, .object _ _ => none
  | _, _ => some false

/-- Mirror of fn equality. -/
def equality (left right : Value) : PRes ValueType :=
  match test_equality left right with
  | some b => .ok (.boolean b)
  | none => .unimplemented

/-- Mirror of fn inequality. -/
def inequality (left right : Value) : PRes ValueType :=
  match test_equality left right with
  | some b => .ok (.boolean (!b))
  | none => .unimplemented

/-- Rendering of an integral rational, matching the Display output of an
integral f64.  All values printed by the programs under study are
integral. -/
def renderNum (n : ℚ) : String :=
  if n.den = 1 then toString n.num else toString n

/-- Mirror of impl Display for ValueType in src/ast/types.rs.  The Object
arm is todo! in the source, modelled as none. -/
def render : ValueType → Option String
  | .str s => some s
  | .num n => some (renderNum n)
  | .boolean b => some (if b then "true" else "false")
  | .nil => some "nil"
  | .object _ _ => none
  | .nativeFunction _ _ => some "<native fn>"
  | .function _ _ => some "<function>"
  | .class' name => some name.ident

/-! ## The evaluator (src/eval/expressions.rs, src/eval/statements.rs)

The Rust Evaluator owns an Environment and an OutputStream; runtime errors
thread the mutated state with them, since the Rust visitors take &mut self.
Native functions are host-provided fn pointers; their behaviour is a
parameter of the embedding, looked up by the numeric fn pointer tag. -/

/-- Evaluator state: the environment plus the output sink.  The output
sink is the in-memory String variant of OutputStream, whose write_str
never fails. -/
structure EvalState where
  env : Environment
  out : String

/-- Outcome of running a visitor: a result with the updated state, a
runtime error with the state at the moment it was raised, a todo! panic,
or exhaustion of the embedding fuel. -/
inductive EvalOutcome (α : Type) where
  | ok (val : α) (s : EvalState)
  | err (e : RuntimeError) (s : EvalState)
  | unimplemented
  | fuelOut

/-- Host behaviour of native functions, indexed by the fn pointer tag. -/
def NativeImpl : Type :=
  Nat → List ValueType → CodeSpan → Except RuntimeError ValueType

/-- Dispatch of the pure binary helpers, exactly the arms of the match in
visit_binary that first evaluate the right operand.  The conjunction and
disjunction arms are handled before the right operand is evaluated and
never reach this function. -/
def binaryStrict (op : BinaryOperator) (left right : Value) : PRes ValueType :=
  match op with
  | .equality => equality left right
  | .inequality => inequality left right
  | .strictInferiority => strict_inferiority left right
  | .inferiority => inferiority left right
  | .strictSuperiority => strict_superiority left right
  | .superiority => superiority left right
  | .addition => addition left right
  | .subtraction => subtraction left right
  | .multiplication => multiplication left right
  | .division => division left right
  | .conjunction => .unimplemented
  | .disjunction => .unimplemented

/-- Mirror of the parameter binding loop in visit_call:
for (arg, value) in f.args.iter().zip(arguments) self.env.define(..). -/
def bindParams : Environment → List Identifier → List ValueType → Environment
  | env, a :: rest, v :: vs => bindParams (env.define a.ident v) rest vs
  | env, _, _ => env

section Evaluator

variable (ni : NativeImpl)

mutual

/-- Mirror of impl ExpressionVisitor for Evaluator (visit_expression and
the per-node visit functions), with explicit state threading and fuel. -/
def visitExpression : Nat → EvalState → Expression → EvalOutcome Value
  | 0, _, _ => .fuelOut
  | fuel + 1, s, e =>
    match e with
    | .literal v loc =>
        match v with
        | .stringLiteral str => .ok ⟨loc, .str str⟩ s
        | .numberLiteral n => .ok ⟨loc, .num n⟩ s
        | .true' => .ok ⟨loc, .boolean true⟩ s
        | .false' => .ok ⟨loc, .boolean false⟩ s
        | .nil' => .ok ⟨loc, .nil⟩ s
    | .unaryOperation op expr loc =>
        match visitExpression fuel s expr with
        | .ok operand s1 =>
            match op, operand.value with
            | .minus, .num n => .ok ⟨loc, .num (-n)⟩ s1
            | .minus, v =>
                .err (.mismatchedTypes loc v.as_type {LoxType.number}) s1
            | .not, v => .ok ⟨loc, .boolean (!is_truthy v)⟩ s1
        | .err e' s1 => .err e' s1
        | .unimplemented => .unimplemented
        | .fuelOut => .fuelOut
    | .binaryOperation op l r loc =>
        match visitExpression fuel s l with
        | .ok left s1 =>
            match op with
            | .disjunction =>
                if is_truthy left.value then .ok ⟨loc, left.value⟩ s1
                else
                  match visitExpression fuel s1 r with
                  | .ok v s2 => .ok ⟨loc, v.value⟩ s2
                  | .err e' s2 => .err e' s2
                  | .unimplemented => .unimplemented
                  | .fuelOut => .fuelOut
            | .conjunction =>
                if !is_truthy left.value then .ok ⟨loc, left.value⟩ s1
                else
                  match visitExpression fuel s1 r with
                  | .ok v s2 => .ok ⟨loc, v.value⟩ s2
                  | .err e' s2 => .err e' s2
                  | .unimplemented => .unimplemented
                  | .fuelOut => .fuelOut
            | op' =>
                match visitExpression fuel s1 r with
                | .ok right s2 =>
                    match binaryStrict op' left right with
                    | .ok vt => .ok ⟨loc, vt⟩ s2
                    | .err e' => .err e' s2
                    | .unimplemented => .unimplemented
                | .err e' s2 => .err e' s2
                | .unimplemented => .unimplemented
                | .fuelOut => .fuelOut
        | .err e' s1 => .err e' s1
        | .unimplemented => .unimplemented
        | .fuelOut => .fuelOut
    | .identifier i =>
        match s.env.get i.ident with
        | some v => .ok ⟨i.location, v⟩ s
        | none => .err (.unboundName i.location i.ident) s
    | .assignment ident expr _loc =>
        match visitExpression fuel s expr with
        | .ok v s1 =>
            match s1.env.assign ident.ident v with
            | .ok env' => .ok v { s1 with env := env' }
            | .error e' => .err e' s1
        | .err e' s1 => .err e' s1
        | .unimplemented => .unimplemented
        | .fuelOut => .fuelOut
    | .call callee arguments loc =>
        match visitExpression fuel s callee with
        | .ok calleeV s1 =>
            match visitArgs fuel s1 arguments with
            | .ok argVals s2 => callValue fuel s2 calleeV argVals loc
            | .err e' s2 => .err e' s2
            | .unimplemented => .unimplemented
            | .fuelOut => .fuelOut
        | .err e' s1 => .err e' s1
        | .unimplemented => .unimplemented
        | .fuelOut => .fuelOut
    | .get _ _ _ => .unimplemented

/-- Mirror of the argument evaluation loop in visit_call: evaluate each
argument in order, collecting the values. -/
def visitArgs : Nat → EvalState → List Expression → EvalOutcome (List ValueType)
  | 0, _, _ => .fuelOut
  | fuel + 1, s, es =>
    match es with
    | [] => .ok [] s
    | e :: rest =>
        match visitExpression fuel s e with
        | .ok v s1 =>
            match visitArgs fuel s1 rest with
            | .ok vs s2 => .ok (v.value :: vs) s2
            | .err e' s2 => .err e' s2
            | .unimplemented => .unimplemented
            | .fuelOut => .fuelOut
        | .err e' s1 => .err e' s1
        | .unimplemented => .unimplemented
        | .fuelOut => .fuelOut

/-- Mirror of the match on callee.value in visit_call:
native functions check arity then invoke the host function; user functions
check arity, push a frame, bind the parameters and run the body; classes
check arity against 0 and allocate a fresh object; anything else is
NotCallable. -/
def callValue : Nat → EvalState → Value → List ValueType → CodeSpan →
    EvalOutcome Value
  | 0, _, _, _, _ => .fuelOut
  | fuel + 1, s, callee, argVals, loc =>
    match callee.value with
    | .nativeFunction fnPtr arity =>
        if argVals.length ≠ arity then
          .err (.invalidArgumentCount loc arity argVals.length) s
        else
          match ni fnPtr argVals loc with
          | .ok vt => .ok ⟨loc, vt⟩ s
          | .error e' => .err e' s
    | .function _rcId f =>
        if argVals.length ≠ f.args.length then
          .err (.invalidArgumentCount loc f.args.length argVals.length) s
        else
          runFunctionBody fuel
            { s with env := bindParams s.env.push_env f.args argVals }
            f.body f.span
    | .class' cname =>
        if argVals.length ≠ 0 then
          .err (.invalidArgumentCount loc 0 argVals.length) s
        else
          .ok ⟨loc, .object cname []⟩ s
    | _ => .err (.notCallable callee.location) s

/-- Mirror of the body loop of the Function branch of visit_call: run the
body statements in order with ret initialised to Nil; a Return(value)
signal sets ret and breaks; any other error returns at once WITHOUT
popping the frame; after the loop the frame is popped and the call yields
Value with the function declaration span and ret. -/
def runFunctionBody : Nat → EvalState → List Statement → CodeSpan →
    EvalOutcome Value
  | 0, _, _, _ => .fuelOut
  | fuel + 1, s, body, fnSpan =>
    match body with
    | [] => .ok ⟨fnSpan, .nil⟩ { s with env := s.env.pop_env }
    | stmt :: rest =>
        match visitStatement fuel s stmt with
        | .ok _ s1 => runFunctionBody fuel s1 rest fnSpan
        | .err (.ret v) s1 =>
            .ok ⟨fnSpan, v.value⟩ { s1 with env := s1.env.pop_env }
        | .err e' s1 => .err e' s1
        | .unimplemented => .unimplemented
        | .fuelOut => .fuelOut

/-- Mirror of impl StatementVisitor for Evaluator in
src/eval/statements.rs. -/
def visitStatement : Nat → EvalState → Statement → EvalOutcome Unit
  | 0, _, _ => .fuelOut
  | fuel + 1, s, stmt =>
    match stmt with
    | .print e =>
        match visitExpression fuel s e with
        | .ok v s1 =>
            match render v.value with
            | some str => .ok () { s1 with out := s1.out ++ str }
            | none => .unimplemented
        | .err e' s1 => .err e' s1
        | .unimplemented => .unimplemented
        | .fuelOut => .fuelOut
    | .expression e =>
        match visitExpression fuel s e with
        | .ok _ s1 => .ok () s1
        | .err e' s1 => .err e' s1
        | .unimplemented => .unimplemented
        | .fuelOut => .fuelOut
    | .variableDeclaration name init =>
        match visitExpression fuel s init with
        | .ok v s1 => .ok () { s1 with env := s1.env.define name.ident v.value }
        | .err e' s1 => .err e' s1
        | .unimplemented => .unimplemented
        | .fuelOut => .fuelOut
    | .block stmts => runBlock fuel { s with env := s.env.push_env } stmts
    | .conditional cond thenS elseS =>
        match visitExpression fuel s cond with
        | .ok v s1 =>
            if is_truthy v.value then visitStatement fuel s1 thenS
            else
              match elseS with
              | some es => visitStatement fuel s1 es
              | none => .ok () s1
        | .err e' s1 => .err e' s1
        | .unimplemented => .unimplemented
        | .fuelOut => .fuelOut
    | .whileLoop cond body => runWhile fuel s cond body
    | .forLoop init cond incr body =>
        match init with
        | some i =>
            match visitStatement fuel { s with env := s.env.push_env } i with
            | .ok _ s2 => runFor fuel s2 cond incr body
            | .err e' s2 => .err e' s2
            | .unimplemented => .unimplemented
            | .fuelOut => .fuelOut
        | none => runFor fuel { s with env := s.env.push_env } cond incr body
    | .functionDeclaration name rcId args body span =>
        .ok ()
          { s with
            env := s.env.define name.ident (.function rcId ⟨args, body, span⟩) }
    | .ret e =>
        match visitExpression fuel s e with
        | .ok v s1 => .err (.ret v) s1
        | .err e' s1 => .err e' s1
        | .unimplemented => .unimplemented
        | .fuelOut => .fuelOut

/-- Mirror of the Block arm of visit_statement: the frame has already been
pushed by the caller; each statement is run with the ? operator, so an
error propagates WITHOUT popping; the pop happens only after a normal run
of every statement. -/
def runBlock : Nat → EvalState → List Statement → EvalOutcome Unit
  | 0, _, _ => .fuelOut
  | fuel + 1, s, stmts =>
    match stmts with
    | [] => .ok () { s with env := s.env.pop_env }
    | st :: rest =>
        match visitStatement fuel s st with
        | .ok _ s1 => runBlock fuel s1 rest
        | .err e' s1 => .err e' s1
        | .unimplemented => .unimplemented
        | .fuelOut => .fuelOut

/-- Mirror of visit_while_loop. -/
def runWhile : Nat → EvalState → Expression → Statement → EvalOutcome Unit
  | 0, _, _, _ => .fuelOut
  | fuel + 1, s, cond, body =>
    match visitExpression fuel s cond with
    | .ok v s1 =>
        if is_truthy v.value then
          match visitStatement fuel s1 body with
          | .ok _ s2 => runWhile fuel s2 cond body
          | .err e' s2 => .err e' s2
          | .unimplemented => .unimplemented
          | .fuelOut => .fuelOut
        else .ok () s1
    | .err e' s1 => .err e' s1
    | .unimplemented => .unimplemented
    | .fuelOut => .fuelOut

/-- Mirror of the loops of visit_for_loop, entered after the frame push
and the optional initializer.  With a condition the loop pops the frame
when the condition turns falsy; without a condition the Rust loop runs
forever and only an error (which does not pop) leaves it. -/
def runFor : Nat → EvalState → Option Expression → Option Expression →
    Statement → EvalOutcome Unit
  | 0, _, _, _, _ => .fuelOut
  | fuel + 1, s, cond, incr, body =>
    match cond with
    | some c =>
        match visitExpression fuel s c with
        | .ok v s1 =>
            if is_truthy v.value then
              match visitStatement fuel s1 body with
              | .ok _ s2 =>
                  match incr with
                  | some inc =>
                      match visitExpression fuel s2 inc with
                      | .ok _ s3 => runFor fuel s3 cond incr body
                      | .err e' s3 => .err e' s3
                      | .unimplemented => .unimplemented
                      | .fuelOut => .fuelOut
                  | none => runFor fuel s2 cond incr body
              | .err e' s2 => .err e' s2
              | .unimplemented => .unimplemented
              | .fuelOut => .fuelOut
            else .ok () { s1 with env := s1.env.pop_env }
        | .err e' s1 => .err e' s1
        | .unimplemented => .unimplemented
        | .fuelOut => .fuelOut
    | none =>
        match visitStatement fuel s body with
        | .ok _ s2 =>
            match incr with
            | some inc =>
                match visitExpression fuel s2 inc with
                | .ok _ s3 => runFor fuel s3 cond incr body
                | .err e' s3 => .err e' s3
                | .unimplemented => .unimplemented
                | .fuelOut => .fuelOut
            | none => runFor fuel s2 cond incr body
        | .err e' s2 => .err e' s2
        | .unimplemented => .unimplemented
        | .fuelOut => .fuelOut

end

/-- The top-level driver loop over parsed statements, as in the test
harness and the file driver: visit each statement in order, stopping at
the first abnormal outcome. -/
def runStmts : Nat → EvalState → List Statement → EvalOutcome Unit
  | 0, _, _ => .fuelOut
  | fuel + 1, s, stmts =>
    match stmts with
    | [] => .ok () s
    | st :: rest =>
        match visitStatement ni fuel s st with
        | .ok _ s1 => runStmts fuel s1 rest
        | .err e' s1 => .err e' s1
        | .unimplemented => .unimplemented
        | .fuelOut => .fuelOut

/-- Run a program from a fresh Evaluator (empty environment, empty
output). -/
def runProgram (fuel : Nat) (prog : List Statement) : EvalOutcome Unit :=
  runStmts ni fuel ⟨Environment.new, ""⟩ prog

end Evaluator

/-! ## Scanner (src/scanning/mod.rs)

The scanner in src/scanning/mod.rs works over a location tracking char
iterator; here it works over the explicit list of remaining characters,
the current location, and the running span start, returning the token
together with the updated triple.  Lexical errors are embedded as Invalid
tokens carrying a crate::error::Error, i.e. a message and a span. -/

/-- Mirror of TokenType as used by scan in src/scanning/mod.rs. -/
inductive TokenType where
  | leftParen
  | rightParen
  | leftBrace
  | rightBrace
  | comma
  | dot
  | minus
  | plus
  | semicolon
  | star
  | slash
  | bang
  | bangEqual
  | equal
  | equalEqual
  | string' (s : String)
  | number (n : ℚ)
  | identifier (s : String)
  | and'
  | class'
  | else'
  | false'
  | for'
  | fun'
  | if'
  | nil'
  | or'
  | print'
  | return'
  | super'
  | this'
  | true'
  | var'
  | while'
  | invalid (message : String) (location : CodeSpan)
  | eof
deriving DecidableEq, Repr

/-- Mirror of struct Token. -/
structure Token where
  token : TokenType
  span : CodeSpan
deriving DecidableEq, Repr

/-- Mirror of Token::is_of_type(TokenType::EOF), the only use made of it
by scan_all. -/
def Token.isEOF (t : Token) : Bool :=
  match t.token with
  | .eof => true
  | _ => false

/-- A single quote character, written by code point to keep source
hygiene; it appears inside the invalid character message. -/
def squote : String := String.singleton (Char.ofNat 39)

/-- The message built by the invalid character arm of scan. -/
def invalidCharMessage (c : Char) : String :=
  "Invalid character " ++ squote ++ String.singleton c ++ squote

/-- Mirror of extend_with_digits: consume leading ascii digits, returning
them, the rest, and the location after them. -/
def extend_with_digits : List Char → Location → (List Char × List Char × Location)
  | [], loc => ([], [], loc)
  | c :: cs, loc =>
      if c.isDigit then
        let r := extend_with_digits cs (loc.advance c)
        (c :: r.1, r.2.1, r.2.2)
      else ([], c :: cs, loc)

/-- Consume ascii alphanumerics and underscores, the identifier munch loop
of scan. -/
def munchIdent : List Char → Location → (List Char × List Char × Location)
  | [], loc => ([], [], loc)
  | c :: cs, loc =>
      if c.isAlphanum ∨ c = '_' then
        let r := munchIdent cs (loc.advance c)
        (c :: r.1, r.2.1, r.2.2)
      else ([], c :: cs, loc)

/-- The comment skip loop of scan: consume up to and including the next
newline; the Bool tells whether a newline was found before the end. -/
def skipToNewline : List Char → Location → (List Char × Location × Bool)
  | [], loc => ([], loc, false)
  | c :: cs, loc =>
      if c = '\n' then (cs, loc.advance c, true)
      else skipToNewline cs (loc.advance c)

/-- Result of the string literal loop of scan. -/
inductive StrScan where
  | closed (content : List Char) (rest : List Char) (loc : Location)
  | unterminated (loc : Location)

/-- The string literal loop of scan: consume characters up to the closing
quote (which is consumed too), or report an unterminated string when the
input ends first. -/
def scanStringChars : List Char → Location → List Char → StrScan
  | [], loc, _ => .unterminated loc
  | c :: cs, loc, acc =>
      if c = '"' then .closed acc cs (loc.advance c)
      else scanStringChars cs (loc.advance c) (acc ++ [c])

/-- The natural number spelled by a sequence of ascii digits. -/
def digitsToNat (s : List Char) : Nat :=
  s.foldl (fun acc c => acc * 10 + (c.toNat - 48)) 0

/-- Mirror of str.parse::<f64>() on the decimal literals the number arm of
scan builds: leading digits, optionally a dot and further digits.  On
small literals rational and binary64 parsing agree.  The digit arithmetic
stays in the naturals, with a single cast into the rationals, and the
fractional correction is added only when fractional digits are present
(for a bare trailing dot the value is the integer part, as f64 parsing
gives). -/
def parseNumberChars (s : List Char) : ℚ :=
  let intPart := s.takeWhile (· ≠ '.')
  match s.dropWhile (· ≠ '.') with
  | [] => (digitsToNat intPart : ℚ)
  | [_] => (digitsToNat intPart : ℚ)
  | _ :: frac =>
      (digitsToNat intPart : ℚ)
        + (digitsToNat frac : ℚ) / ((10 : ℚ) ^ frac.length)

/-- The reserved word table of the identifier arm of scan. -/
def keywordOrIdentifier (s : String) : TokenType :=
  match s with
  | "and" => .and'
  | "class" => .class'
  | "else" => .else'
  | "false" => .false'
  | "for" => .for'
  | "fun" => .fun'
  | "if" => .if'
  | "nil" => .nil'
  | "or" => .or'
  | "print" => .print'
  | "return" => .return'
  | "super" => .super'
  | "this" => .this'
  | "true" => .true'
  | "var" => .var'
  | "while" => .while'
  | _ => .identifier s

/-- Mirror of scan: given the remaining characters, the current location
and the span start, produce the next token and the updated remaining
characters, location and span start.  The fuel argument only feeds the
whitespace and comment skipping loop, which consumes at least one
character per round, so any fuel above the input length is enough; the
fuel-out answer is never reached in the uses below. -/
def scanGo : Nat → List Char → Location → Location →
    (Token × List Char × Location × Location)
  | 0, cs, loc, start => (⟨.eof, ⟨loc, loc⟩⟩, cs, loc, start)
  | fuel + 1, cs, loc, start =>
    match cs with
    | [] => (⟨.eof, ⟨start, loc⟩⟩, [], loc, loc)
    | c :: rest =>
      let loc1 := loc.advance c
      if c = '/' ∧ rest.head? = some '/' then
        match skipToNewline rest loc1 with
        | (rest', loc', true) => scanGo fuel rest' loc' loc'
        | (rest', loc', false) => (⟨.eof, ⟨loc', loc'⟩⟩, rest', loc', start)
      else if c = '(' then (⟨.leftParen, ⟨start, loc1⟩⟩, rest, loc1, loc1)
      else if c = ')' then (⟨.rightParen, ⟨start, loc1⟩⟩, rest, loc1, loc1)
      else if c = '{' then (⟨.leftBrace, ⟨start, loc1⟩⟩, rest, loc1, loc1)
      else if c = '}' then (⟨.rightBrace, ⟨start, loc1⟩⟩, rest, loc1, loc1)
      else if c = ',' then (⟨.comma, ⟨start, loc1⟩⟩, rest, loc1, loc1)
      else if c = '.' then (⟨.dot, ⟨start, loc1⟩⟩, rest, loc1, loc1)
      else if c = '-' then (⟨.minus, ⟨start, loc1⟩⟩, rest, loc1, loc1)
      else if c = '+' then (⟨.plus, ⟨start, loc1⟩⟩, rest, loc1, loc1)
      else if c = ';' then (⟨.semicolon, ⟨start, loc1⟩⟩, rest, loc1, loc1)
      else if c = '*' then (⟨.star, ⟨start, loc1⟩⟩, rest, loc1, loc1)
      else if c = '/' then (⟨.slash, ⟨start, loc1⟩⟩, rest, loc1, loc1)
      else if c = '!' then
        match rest with
        | '=' :: rest2 =>
            let loc2 := loc1.advance '='
            (⟨.bangEqual, ⟨start, loc2⟩⟩, rest2, loc2, loc2)
        | _ => (⟨.bang, ⟨start, loc1⟩⟩, rest, loc1, loc1)
      else if c = '=' then
        match rest with
        | '=' :: rest2 =>
            let loc2 := loc1.advance '='
            (⟨.equalEqual, ⟨start, loc2⟩⟩, rest2, loc2, loc2)
        | _ => (⟨.equal, ⟨start, loc1⟩⟩, rest, loc1, loc1)
      else if c = '\t' ∨ c = ' ' then scanGo fuel rest loc1 loc1
      else if c = '\n' then scanGo fuel rest loc1 loc1
      else if c = '"' then
        match scanStringChars rest loc1 [] with
        | .closed content rest2 loc2 =>
            (⟨.string' (String.mk content), ⟨start, loc2⟩⟩, rest2, loc2, loc2)
        | .unterminated loc2 =>
            (⟨.invalid "Unterminated string" ⟨start, loc2⟩, ⟨start, loc2⟩⟩,
              [], loc2, loc2)
      else if c.isDigit then
        match extend_with_digits rest loc1 with
        | (ds, rest1, loc2) =>
          match rest1 with
          | '.' :: rest2 =>
              let loc3 := loc2.advance '.'
              match extend_with_digits rest2 loc3 with
              | (ds2, rest3, loc4) =>
                (⟨.number (parseNumberChars (c :: ds ++ '.' :: ds2)),
                    ⟨start, loc4⟩⟩, rest3, loc4, loc4)
          | _ =>
              (⟨.number (parseNumberChars (c :: ds)), ⟨start, loc2⟩⟩,
                rest1, loc2, loc2)
      else if c.isAlpha ∨ c = '_' then
        match munchIdent rest loc1 with
        | (ids, rest1, loc2) =>
            (⟨keywordOrIdentifier (String.mk (c :: ids)), ⟨start, loc2⟩⟩,
              rest1, loc2, loc2)
      else
        (⟨.invalid (invalidCharMessage c) ⟨⟨start.line, start.char⟩, loc1⟩,
            ⟨⟨start.line, start.char⟩, loc1⟩⟩, rest, loc1, start)

/-- Mirror of the loop of scan_all: scan tokens until EOF, which is kept
as the final token. -/
def scanAllGo : Nat → List Char → Location → Location → List Token
  | 0, _, _, _ => []
  | fuel + 1, cs, loc, start =>
      match scanGo (cs.length + 1) cs loc start with
      | (t, cs', loc', start') =>
          if t.isEOF then [t] else t :: scanAllGo fuel cs' loc' start'

/-- Mirror of scan_all. -/
def scan_all (code : String) : List Token :=
  scanAllGo (code.length + 1) code.toList Location.start Location.start

/-! ## Fixtures and observation helpers for the claims -/

/-- A placeholder span used by the concrete programs below; spans take no
part in the behaviours these programs exercise unless stated. -/
def sp0 : CodeSpan := ⟨⟨1, 0⟩, ⟨1, 0⟩⟩

/-- A native prelude with no behaviour: the concrete programs below never
invoke a native function. -/
def noNatives : NativeImpl := fun _ _ sp => .error (.notCallable sp)

/-- The fresh evaluator state. -/
def st0 : EvalState := ⟨Environment.new, ""⟩

/-- Output of a normally completed run. -/
def outOf : EvalOutcome Unit → Option String
  | .ok _ s => some s.out
  | _ => none

/-- Final state of a normally completed run. -/
def finalStateOf : EvalOutcome Unit → Option EvalState
  | .ok _ s => some s
  | _ => none

/-- Frame stack depth at the moment a runtime error was raised. -/
def errDepthOf : EvalOutcome Unit → Option Nat
  | .err _ s => some s.env.stack.length
  | _ => none

/-- An environment whose earliest pushed (outermost) frame binds x to 1
and whose most recently pushed (innermost) frame binds x to 2; spelled as
a literal in Vec order, index 0 first. -/
def twoFrameEnv : Environment := ⟨[], [[("x", .num 1)], [("x", .num 2)]]⟩

/-- An environment with two pushed frames, both empty. -/
def twoEmptyFramesEnv : Environment := ⟨[], [[], []]⟩

/-- The program var a = 1; { { var a = 2; } print a; } -/
def progNestedShadow : List Statement :=
  [ .variableDeclaration ⟨"a", sp0⟩ (.literal (.numberLiteral 1) sp0)
  , .block
      [ .block [.variableDeclaration ⟨"a", sp0⟩ (.literal (.numberLiteral 2) sp0)]
      , .print (.identifier ⟨"a", sp0⟩) ] ]

/-- A block statement whose single statement reads an unbound name. -/
def blockWithUndef : Statement :=
  .block [.expression (.identifier ⟨"undef", sp0⟩)]

/-- The program fun f() { undef; } f(); -/
def progCallUndef : List Statement :=
  [ .functionDeclaration ⟨"f", sp0⟩ 0 []
      [.expression (.identifier ⟨"undef", sp0⟩)] sp0
  , .expression (.call (.identifier ⟨"f", sp0⟩) [] sp0) ]

/-- The expression true - 1 with the spans of a one-line source. -/
def subtractTrueExpr : Expression :=
  .binaryOperation .subtraction (.literal .true' ⟨⟨1, 0⟩, ⟨1, 4⟩⟩)
    (.literal (.numberLiteral 1) ⟨⟨1, 7⟩, ⟨1, 8⟩⟩) ⟨⟨1, 0⟩, ⟨1, 8⟩⟩

/-- The expression "a" / 0 with the spans of a one-line source. -/
def divideStringByZeroExpr : Expression :=
  .binaryOperation .division (.literal (.stringLiteral "a") ⟨⟨1, 0⟩, ⟨1, 3⟩⟩)
    (.literal (.numberLiteral 0) ⟨⟨1, 6⟩, ⟨1, 7⟩⟩) ⟨⟨1, 0⟩, ⟨1, 7⟩⟩

/-! ## Claim C1 -/

/-- Claim C1: the claim states that Environment::get searches the scope
frames from innermost (most recently pushed) to outermost and that the
inner binding wins.  The code iterates the Vec of frames from index 0,
which is the EARLIEST pushed frame, so the outermost binding wins.  The
first conjunct fixes the orientation (push_env appends at the end of the
list); on an environment whose outer frame binds x to 1 and whose inner
frame binds x to 2, get returns the outer value 1, not the inner value 2
required by the claim. -/
theorem environment_get_searches_outermost_frame_first :
    (∀ e : Environment, e.push_env.stack = e.stack ++ [[]])
    ∧ twoFrameEnv.stack = [[("x", .num 1)], [("x", .num 2)]]
    ∧ twoFrameEnv.stack.getLast? = some [("x", .num 2)]
    ∧ twoFrameEnv.get "x" = some (.num 1) :=
  ⟨fun _ => rfl, rfl, rfl, rfl⟩

/-! ## Claim C2 -/

/-- Claim C2: the claim states that define targets the innermost (most
recently pushed) frame.  The code uses stack.first_mut(), the frame at Vec
index 0, which is the OUTERMOST pushed frame; with two pushed frames the
binding lands in the first frame and the innermost frame stays empty.  The
global fallback of the claim does hold when no frame is pushed.  The last
conjunct runs the nested shadowing program
var a = 1; { { var a = 2; } print a; } which prints 2 because the inner
declaration landed in the outer frame and survived the inner block exit;
under the claimed innermost-frame rule it would print 1. -/
theorem environment_define_targets_first_pushed_frame :
    (∀ e : Environment, e.push_env.stack = e.stack ++ [[]])
    ∧ (twoEmptyFramesEnv.define "x" (.num 5)).stack = [[("x", .num 5)], []]
    ∧ (Environment.mk [] []).define "x" (.num 5) = ⟨[("x", .num 5)], []⟩
    ∧ (∀ ni, outOf (runProgram ni 20 progNestedShadow) = some "2") :=
  ⟨fun _ => rfl, rfl, rfl, fun _ => rfl⟩

/-! ## Claim C4 -/

/-- Claim C4: the claim states that the frame pushed on block or function
entry is popped on every exit path, error paths included.  In the code
both the Block arm of visit_statement and the body loop of visit_call
propagate a runtime error with the ? operator or an early return BEFORE
the pop, so the frame leaks.  From depth 0, a block whose statement reads
an unbound name errors out at depth 1, and a call of fun f() { undef; }
likewise ends with the error state at depth 1. -/
theorem frame_not_popped_on_error_exit :
    Environment.new.stack.length = 0
    ∧ (∀ ni, visitStatement ni 10 st0 blockWithUndef
        = .err (.unboundName sp0 "undef") ⟨⟨[], [[]]⟩, ""⟩)
    ∧ (∀ ni, errDepthOf (runProgram ni 20 progCallUndef) = some 1) :=
  ⟨rfl, fun _ => rfl, fun _ => rfl⟩

/-! ## Claim C7 -/

/-- Claim C7: the claim states that the MismatchedTypes raised by the
numeric binary operators carries the actual runtime type of the offending
operand.  The code of as_number hardcodes Type::Number as the actual type
(unlike as_string, which calls as_type); its span and allowed set match
the claim.  Evaluating true - 1 therefore reports actual type Number at
the span of true, where the claim requires actual type Boolean. -/
theorem as_number_reports_number_as_actual_type :
    (∀ (loc : CodeSpan) (b : Bool),
        as_number ⟨loc, .boolean b⟩
          = .error (.mismatchedTypes loc .number {LoxType.number}))
    ∧ (ValueType.boolean true).as_type = .boolean
    ∧ (∀ ni, visitExpression ni 5 st0 subtractTrueExpr
        = .err (.mismatchedTypes ⟨⟨1, 0⟩, ⟨1, 4⟩⟩ .number {LoxType.number}) st0) :=
  ⟨fun _ _ => rfl, rfl, fun _ => rfl⟩

/-! ## Claim C9 -/

/-- Claim C9: division first compares the right operand with Number(0.0)
through the ValueType PartialEq impl, before either operand goes through
as_number, so a zero divisor raises DivisionByZero with the combined span
of the two operands for EVERY left operand, numeric or not; negative zero
compares equal to zero.  The last conjunct evaluates "a" / 0, where the
left operand is a string, and still gets DivisionByZero over the combined
span rather than MismatchedTypes. -/
theorem division_zero_check_precedes_type_check :
    (∀ (lv : ValueType) (ls rs : CodeSpan),
        division ⟨ls, lv⟩ ⟨rs, .num 0⟩
          = .err (.divisionByZero (CodeSpan.combine ls rs)))
    ∧ (∀ (lv : ValueType) (ls rs : CodeSpan),
        division ⟨ls, lv⟩ ⟨rs, .num (-0)⟩
          = .err (.divisionByZero (CodeSpan.combine ls rs)))
    ∧ (∀ ni, visitExpression ni 5 st0 divideStringByZeroExpr
        = .err (.divisionByZero ⟨⟨1, 0⟩, ⟨1, 7⟩⟩) st0) :=
  ⟨fun _ _ _ => rfl, fun _ _ _ => rfl, fun _ => rfl⟩

/-! ## Claim C5 -/

/-- One shared Function instance: same Rc identity tag, same payload on
both sides of the comparison. -/
def sharedFn : ValueType := .function 0 ⟨[], [], sp0⟩

/-- The program fun f() { } print f == f; in which both operands of == are
the very same shared function instance. -/
def progPrintFnEq : List Statement :=
  [ .functionDeclaration ⟨"f", sp0⟩ 0 [] [] sp0
  , .print (.binaryOperation .equality (.identifier ⟨"f", sp0⟩)
      (.identifier ⟨"f", sp0⟩) sp0) ]

/-- The componentwise same-kind equality over the primitive kinds, written
from the words of the amended claim for comparison with test_equality. -/
def primEq : ValueType → ValueType → Prop
  | .boolean a, .boolean b => a = b
  | .nil, .nil => True
  | .num a, .num b => a = b
  | .str a, .str b => a = b
  | _, _ => False

/-- Both operands are class instances. -/
def bothObjects : ValueType → ValueType → Prop
  | .object _ _, .object _ _ => True
  | _, _ => False

/-- On every pair that is not two objects, test_equality yields a truth
value. -/
theorem test_equality_total_of_not_objects (left right : Value)
    (h : ¬ bothObjects left.value right.value) :
    ∃ b, test_equality left right = some b := by
  obtain ⟨ls, lv⟩ := left
  obtain ⟨rs, rv⟩ := right
  cases lv <;> cases rv <;> simp_all [test_equality, bothObjects]

/-- Claim C5 counterexample: the claim states that two function values
compare equal exactly when they are the same shared instance.  The match
of test_equality has no Function arm, so the same shared instance falls to
the catch-all and compares FALSE; the program fun f() { } print f == f;
prints false.  (The PartialEq impl of ValueType does use Rc::ptr_eq, but
the == operator evaluates through test_equality, not through PartialEq.) -/
theorem same_function_instance_compares_unequal :
    test_equality ⟨sp0, sharedFn⟩ ⟨sp0, sharedFn⟩ = some false
    ∧ test_equality ⟨sp0, sharedFn⟩ ⟨sp0, sharedFn⟩ ≠ some true
    ∧ outOf (runProgram noNatives 20 progPrintFnEq) = some "false" :=
  ⟨rfl, fun h => Bool.noConfusion (Option.some.inj h), rfl⟩

/-- Claim C5 as amended: == yields a truth value on every pair except two
class instances; it is true exactly when both operands are the same kind
among Boolean, Nil, Number, String with equal components; every other
pair — cross-kind pairs, and also two functions (even the same shared
instance), two natives, two classes — compares unequal; != negates
whatever truth value == yields. -/
theorem equality_componentwise_primitives_only (left right : Value) :
    (test_equality left right = some true ↔ primEq left.value right.value)
    ∧ (¬ bothObjects left.value right.value →
        ∃ b, test_equality left right = some b)
    ∧ (∀ b, test_equality left right = some b →
        inequality left right = .ok (.boolean (!b)))
    ∧ (∀ r1 f1 r2 f2, left.value = .function r1 f1 →
        right.value = .function r2 f2 → test_equality left right = some false) := by
  refine ⟨?_, test_equality_total_of_not_objects left right, ?_, ?_⟩
  · obtain ⟨ls, lv⟩ := left
    obtain ⟨rs, rv⟩ := right
    cases lv <;> cases rv <;> simp [test_equality, primEq]
  · intro b hb
    simp [inequality, hb]
  · intro r1 f1 r2 f2 h1 h2
    obtain ⟨ls, lv⟩ := left
    obtain ⟨rs, rv⟩ := right
    simp only at h1 h2
    subst h1; subst h2
    rfl

/-- Witness for the amended claim C5, at concrete inputs: numbers 1 and 1
for the componentwise clause, a number against a boolean for totality, the
negation clause at a pair of equal numbers, and the shared function
instance for the function clause. -/
theorem equality_componentwise_primitives_only_witness :
    (test_equality ⟨sp0, .num 1⟩ ⟨sp0, .num 1⟩ = some true
      ↔ primEq (ValueType.num 1) (ValueType.num 1))
    ∧ (¬ bothObjects (ValueType.num 1) (ValueType.boolean true))
    ∧ (∃ b, test_equality ⟨sp0, .num 1⟩ ⟨sp0, .boolean true⟩ = some b)
    ∧ (test_equality ⟨sp0, .num 1⟩ ⟨sp0, .num 1⟩ = some true)
    ∧ inequality ⟨sp0, .num 1⟩ ⟨sp0, .num 1⟩ = .ok (.boolean (!true))
    ∧ (Value.mk sp0 sharedFn).value = .function 0 ⟨[], [], sp0⟩
    ∧ test_equality ⟨sp0, sharedFn⟩ ⟨sp0, sharedFn⟩ = some false :=
  ⟨(equality_componentwise_primitives_only ⟨sp0, .num 1⟩ ⟨sp0, .num 1⟩).1,
   fun h => h,
   (equality_componentwise_primitives_only ⟨sp0, .num 1⟩
      ⟨sp0, .boolean true⟩).2.1 (fun h => h),
   rfl,
   (equality_componentwise_primitives_only ⟨sp0, .num 1⟩
      ⟨sp0, .num 1⟩).2.2.1 true rfl,
   rfl,
   (equality_componentwise_primitives_only ⟨sp0, sharedFn⟩
      ⟨sp0, sharedFn⟩).2.2.2 0 ⟨[], [], sp0⟩ 0 ⟨[], [], sp0⟩ rfl rfl⟩

/-! ## Claim C10 -/

/-- A state binding o to a class instance. -/
def objState : EvalState := ⟨⟨[("o", .object ⟨"C", sp0⟩ [])], []⟩, ""⟩

/-- The expression o == o. -/
def objEqExpr : Expression :=
  .binaryOperation .equality (.identifier ⟨"o", sp0⟩)
    (.identifier ⟨"o", sp0⟩) sp0

/-- Claim C10: on two class instances test_equality reaches the todo!
branch — it yields neither a truth value nor a runtime error, modelled as
none, and evaluating o == o on an object binding ends in the unimplemented
outcome; on every other pair of kinds test_equality is total. -/
theorem object_equality_reaches_todo (left right : Value) :
    (∀ c1 p1 c2 p2 (ls rs : CodeSpan),
        test_equality ⟨ls, .object c1 p1⟩ ⟨rs, .object c2 p2⟩ = none)
    ∧ (¬ bothObjects left.value right.value →
        ∃ b, test_equality left right = some b)
    ∧ (∀ ni, visitExpression ni 5 objState objEqExpr = .unimplemented) :=
  ⟨fun _ _ _ _ _ _ => rfl,
   test_equality_total_of_not_objects left right,
   fun _ => rfl⟩

/-- Witness for claim C10 at a concrete non-object pair: nil against a
string yields a truth value. -/
theorem object_equality_reaches_todo_witness :
    (¬ bothObjects ValueType.nil (ValueType.str "s"))
    ∧ (∃ b, test_equality ⟨sp0, .nil⟩ ⟨sp0, .str "s"⟩ = some b) :=
  ⟨fun h => h,
   (object_equality_reaches_todo ⟨sp0, .nil⟩ ⟨sp0, .str "s"⟩).2.1 (fun h => h)⟩

/-! ## Claim C6 -/

/-- The program var a = 1; false and (a = 2); print a; -/
def progShortCircuit : List Statement :=
  [ .variableDeclaration ⟨"a", sp0⟩ (.literal (.numberLiteral 1) sp0)
  , .expression (.binaryOperation .conjunction (.literal .false' sp0)
      (.assignment ⟨"a", sp0⟩ (.literal (.numberLiteral 2) sp0) sp0) sp0)
  , .print (.identifier ⟨"a", sp0⟩) ]

/-- Claim C6: when the left operand of and evaluates to a falsy value, or
the left operand of or evaluates to a truthy value, the result is the left
value and the state after the whole expression is exactly the state after
the left operand, for EVERY right operand expression — so the right
operand was not evaluated and neither the environment nor the output can
have been changed by it.  The concrete program
var a = 1; false and (a = 2); print a; prints 1 and leaves a bound to 1. -/
theorem short_circuit_skips_right_operand :
    (∀ (ni : NativeImpl) fuel s l (r : Expression) loc v s',
        visitExpression ni fuel s l = .ok v s' →
        is_truthy v.value = false →
        visitExpression ni (fuel + 1) s (.binaryOperation .conjunction l r loc)
          = .ok ⟨loc, v.value⟩ s')
    ∧ (∀ (ni : NativeImpl) fuel s l (r : Expression) loc v s',
        visitExpression ni fuel s l = .ok v s' →
        is_truthy v.value = true →
        visitExpression ni (fuel + 1) s (.binaryOperation .disjunction l r loc)
          = .ok ⟨loc, v.value⟩ s')
    ∧ (∀ ni, outOf (runProgram ni 20 progShortCircuit) = some "1")
    ∧ (∀ ni, (finalStateOf (runProgram ni 20 progShortCircuit)).map
        (fun s => s.env.get "a") = some (some (.num 1))) := by
  refine ⟨?_, ?_, fun _ => rfl, fun _ => rfl⟩
  · intro ni fuel s l r loc v s' h ht
    simp [visitExpression, h, ht]
  · intro ni fuel s l r loc v s' h ht
    simp [visitExpression, h, ht]

/-- Witness for claim C6: the left operands are the literals false and
true, the right operand is an assignment that would rebind a if it ran;
both hypotheses are discharged by computation and the conclusions show the
state unchanged. -/
theorem short_circuit_skips_right_operand_witness :
    visitExpression noNatives 1 st0 (.literal .false' sp0)
        = .ok ⟨sp0, .boolean false⟩ st0
    ∧ is_truthy (ValueType.boolean false) = false
    ∧ visitExpression noNatives 2 st0
        (.binaryOperation .conjunction (.literal .false' sp0)
          (.assignment ⟨"a", sp0⟩ (.literal (.numberLiteral 2) sp0) sp0) sp0)
        = .ok ⟨sp0, .boolean false⟩ st0
    ∧ visitExpression noNatives 1 st0 (.literal .true' sp0)
        = .ok ⟨sp0, .boolean true⟩ st0
    ∧ is_truthy (ValueType.boolean true) = true
    ∧ visitExpression noNatives 2 st0
        (.binaryOperation .disjunction (.literal .true' sp0)
          (.assignment ⟨"a", sp0⟩ (.literal (.numberLiteral 2) sp0) sp0) sp0)
        = .ok ⟨sp0, .boolean true⟩ st0 :=
  ⟨rfl, rfl,
   short_circuit_skips_right_operand.1 noNatives 1 st0 (.literal .false' sp0)
     (.assignment ⟨"a", sp0⟩ (.literal (.numberLiteral 2) sp0) sp0) sp0
     ⟨sp0, .boolean false⟩ st0 rfl rfl,
   rfl, rfl,
   short_circuit_skips_right_operand.2.1 noNatives 1 st0 (.literal .true' sp0)
     (.assignment ⟨"a", sp0⟩ (.literal (.numberLiteral 2) sp0) sp0) sp0
     ⟨sp0, .boolean true⟩ st0 rfl rfl⟩

/-! ## Claim C3 -/

/-- The program fun f(a) { return a + 1; } print f(41); -/
def progReturnExample : List Statement :=
  [ .functionDeclaration ⟨"f", sp0⟩ 0 [⟨"a", sp0⟩]
      [ .ret (.binaryOperation .addition (.identifier ⟨"a", sp0⟩)
          (.literal (.numberLiteral 1) sp0) sp0) ] sp0
  , .print (.call (.identifier ⟨"f", sp0⟩)
      [.literal (.numberLiteral 41) sp0] sp0) ]

/-- A one-parameter function value with an empty body. -/
def fnOneParam : Fn := ⟨[⟨"a", sp0⟩], [], sp0⟩

/-- A parameterless function value with an empty body. -/
def fnNoParams : Fn := ⟨[], [], sp0⟩

/-- The statement return 7; -/
def retSeven : Statement := .ret (.literal (.numberLiteral 7) sp0)

/-- The expression statement undef; -/
def undefStmt : Statement := .expression (.identifier ⟨"undef", sp0⟩)

/-- Claim C3: calling a user function value checks the arity first and
reports InvalidArgumentCount with the expected and actual counts; with
matching arity a frame is pushed and the parameters are bound positionally
before the body runs; a Return(value) signal from a body statement is
caught, the frame is popped and the call yields that value; a body that
completes normally yields Nil (with the frame popped); any other runtime
error from the body propagates to the caller; and the program
fun f(a) { return a + 1; } print f(41); prints 42. -/
theorem user_function_call_semantics :
    (∀ (ni : NativeImpl) fuel s cloc rcId f (argVals : List ValueType) loc,
        argVals.length ≠ f.args.length →
        callValue ni (fuel + 1) s ⟨cloc, .function rcId f⟩ argVals loc
          = .err (.invalidArgumentCount loc f.args.length argVals.length) s)
    ∧ (∀ (ni : NativeImpl) fuel s cloc rcId f (argVals : List ValueType) loc,
        argVals.length = f.args.length →
        callValue ni (fuel + 1) s ⟨cloc, .function rcId f⟩ argVals loc
          = runFunctionBody ni fuel
              ⟨bindParams s.env.push_env f.args argVals, s.out⟩ f.body f.span)
    ∧ (∀ (ni : NativeImpl) fuel s st (rest : List Statement) fnSpan v s',
        visitStatement ni fuel s st = .err (.ret v) s' →
        runFunctionBody ni (fuel + 1) s (st :: rest) fnSpan
          = .ok ⟨fnSpan, v.value⟩ { s' with env := s'.env.pop_env })
    ∧ (∀ (ni : NativeImpl) (fuel : Nat) s fnSpan,
        runFunctionBody ni (fuel + 1) s [] fnSpan
          = .ok ⟨fnSpan, .nil⟩ { s with env := s.env.pop_env })
    ∧ (∀ (ni : NativeImpl) fuel s st (rest : List Statement) fnSpan e s',
        visitStatement ni fuel s st = .err e s' →
        (∀ v, e ≠ .ret v) →
        runFunctionBody ni (fuel + 1) s (st :: rest) fnSpan = .err e s')
    ∧ (∀ ni, outOf (runProgram ni 20 progReturnExample) = some "42") := by
  refine ⟨?_, ?_, ?_, fun _ _ _ _ => rfl, ?_, ?_⟩
  · intro ni fuel s cloc rcId f argVals loc h
    simp [callValue, h]
  · intro ni fuel s cloc rcId f argVals loc h
    simp [callValue, h]
  · intro ni fuel s st rest fnSpan v s' h
    simp [runFunctionBody, h]
  · intro ni fuel s st rest fnSpan e s' h hne
    -- the catch-all arm applies since hne rules the Return arm out
    simp only [runFunctionBody, h]
  · -- The run carries the unreduced sum 41 + 1 through the Return value
    -- into the printed rendering; rewrite the sum to 42 and finish by
    -- computation.
    intro ni
    have h1 : outOf (runProgram ni 20 progReturnExample)
        = some ("" ++ renderNum ((41 : ℚ) + 1)) := rfl
    rw [h1, show ((41 : ℚ) + 1) = 42 from by norm_num]
    rfl

/-- Witness for claim C3: the arity clause at a one-parameter function
called with no arguments; the push-and-bind clause at a parameterless
function; the Return clause at the body return 7; ; the normal completion
clause at the empty body; the propagation clause at a body statement that
reads an unbound name. -/
theorem user_function_call_semantics_witness :
    (([] : List ValueType).length ≠ fnOneParam.args.length)
    ∧ callValue noNatives 1 st0 ⟨sp0, .function 0 fnOneParam⟩ [] sp0
        = .err (.invalidArgumentCount sp0 1 0) st0
    ∧ (([] : List ValueType).length = fnNoParams.args.length)
    ∧ callValue noNatives 1 st0 ⟨sp0, .function 0 fnNoParams⟩ [] sp0
        = runFunctionBody noNatives 0
            ⟨bindParams st0.env.push_env fnNoParams.args [], st0.out⟩
            fnNoParams.body fnNoParams.span
    ∧ visitStatement noNatives 2 st0 retSeven
        = .err (.ret ⟨sp0, .num 7⟩) st0
    ∧ runFunctionBody noNatives 3 st0 [retSeven] sp0
        = .ok ⟨sp0, .num 7⟩ { st0 with env := st0.env.pop_env }
    ∧ runFunctionBody noNatives 1 st0 [] sp0
        = .ok ⟨sp0, .nil⟩ { st0 with env := st0.env.pop_env }
    ∧ visitStatement noNatives 2 st0 undefStmt
        = .err (.unboundName sp0 "undef") st0
    ∧ runFunctionBody noNatives 3 st0 [undefStmt] sp0
        = .err (.unboundName sp0 "undef") st0 :=
  ⟨by decide,
   user_function_call_semantics.1 noNatives 0 st0 sp0 0 fnOneParam [] sp0
     (by decide),
   rfl,
   user_function_call_semantics.2.1 noNatives 0 st0 sp0 0 fnNoParams [] sp0 rfl,
   rfl,
   user_function_call_semantics.2.2.1 noNatives 2 st0 retSeven [] sp0
     ⟨sp0, .num 7⟩ st0 rfl,
   user_function_call_semantics.2.2.2.1 noNatives 0 st0 sp0,
   rfl,
   user_function_call_semantics.2.2.2.2.1 noNatives 2 st0 undefStmt [] sp0
     (.unboundName sp0 "undef") st0 rfl
     (fun _ h => RuntimeError.noConfusion h)⟩

/-! ## Claim C8 -/

/-- Claim C8 counterexample: the claim states that on the input 1. the
scanner does not consume the dot and emits Number(1) followed by a
separate Dot token.  The number arm of scan consumes the dot whenever the
next character is a dot, whether or not a digit follows (the repository
test invalid_floats asserts exactly this and its comment calls it a known
wart): 1. lexes as the SINGLE token Number(1.0) spanning both characters,
and no Dot token is emitted. -/
theorem trailing_dot_is_consumed :
    scan_all "1."
      = [⟨.number 1, ⟨⟨1, 0⟩, ⟨1, 2⟩⟩⟩, ⟨.eof, ⟨⟨1, 2⟩, ⟨1, 2⟩⟩⟩]
    ∧ (scan_all "1.").map Token.token = [.number 1, .eof]
    ∧ (scan_all "1.").map Token.token ≠ [.number 1, .dot, .eof]
    ∧ ((scan_all "1.").map Token.token).count .dot = 0 := by
  have hsc : scan_all "1."
      = [⟨.number 1, ⟨⟨1, 0⟩, ⟨1, 2⟩⟩⟩, ⟨.eof, ⟨⟨1, 2⟩, ⟨1, 2⟩⟩⟩] := rfl
  refine ⟨hsc, by rw [hsc]; rfl, ?_, by rw [hsc]; rfl⟩
  intro h
  rw [hsc] at h
  simp at h

/-- Claim C8 as amended: after a digit sequence the scanner consumes a
following dot unconditionally, together with any digits after it, into a
single Number token — 1. lexes as the single token Number(1.0) covering
both characters — while a leading dot still never begins a number: .1
lexes as Dot then Number(1), and .1 1. reproduces the token sequence the
repository test invalid_floats asserts. -/
theorem trailing_dot_amended :
    scan_all "1."
      = [⟨.number 1, ⟨⟨1, 0⟩, ⟨1, 2⟩⟩⟩, ⟨.eof, ⟨⟨1, 2⟩, ⟨1, 2⟩⟩⟩]
    ∧ scan_all ".1"
      = [⟨.dot, ⟨⟨1, 0⟩, ⟨1, 1⟩⟩⟩, ⟨.number 1, ⟨⟨1, 1⟩, ⟨1, 2⟩⟩⟩,
          ⟨.eof, ⟨⟨1, 2⟩, ⟨1, 2⟩⟩⟩]
    ∧ scan_all ".1 1."
      = [⟨.dot, ⟨⟨1, 0⟩, ⟨1, 1⟩⟩⟩, ⟨.number 1, ⟨⟨1, 1⟩, ⟨1, 2⟩⟩⟩,
          ⟨.number 1, ⟨⟨1, 3⟩, ⟨1, 5⟩⟩⟩, ⟨.eof, ⟨⟨1, 5⟩, ⟨1, 5⟩⟩⟩]
    ∧ scan_all "1.0"
      = [⟨.number 1, ⟨⟨1, 0⟩, ⟨1, 3⟩⟩⟩, ⟨.eof, ⟨⟨1, 3⟩, ⟨1, 3⟩⟩⟩] := by
  refine ⟨rfl, rfl, rfl, ?_⟩
  -- the fractional payload of 1.0 carries an unreduced rational; name it,
  -- reduce it with norm_num and finish by computation
  have h1 : scan_all "1.0"
      = [⟨.number (parseNumberChars ['1', '.', '0']), ⟨⟨1, 0⟩, ⟨1, 3⟩⟩⟩,
          ⟨.eof, ⟨⟨1, 3⟩, ⟨1, 3⟩⟩⟩] := rfl
  have h2a : parseNumberChars ['1', '.', '0']
      = (1 : ℚ) + (0 : ℚ) / (10 : ℚ) ^ (1 : ℕ) := rfl
  have h2b : (1 : ℚ) + (0 : ℚ) / (10 : ℚ) ^ (1 : ℕ) = 1 := by norm_num
  rw [h1, h2a.trans h2b]
